import Mathlib

/-!
Shallow embedding of the `drivercraft/sdmmc` eMMC driver core
(`src/emmc/{cmd.rs, block.rs, mod.rs}`, error type from `src/err.rs`),
together with theorems settling the frozen specification claims.

Machine integers are modelled as `Nat` with an explicit `% 2^32` where the
Rust `u32` arithmetic can wrap.  Hardware register reads are modelled as
oracles (`Nat → Nat` sequences of observed values); each driver routine is
translated to a pure function that additionally returns the trace of
commands or line resets it issues, so that the claims about "what gets
programmed" become statements about that trace.
-/

set_option maxRecDepth 10000

namespace Sdmmc

/-- Error type, from `src/err.rs` (`SdError`).  The variants beyond the ones
listed in `err.rs` (`CurrentLimit`, `DataError`, `MemoryError`,
`InvalidArgument`, `BadMessage`, `BusWidth`) are named by the eMMC engine in
`src/emmc/cmd.rs`, `block.rs` and `mod.rs`; they belong to the build of
`SdError` those files compile against. -/
inductive SdError where
  | Timeout
  | Crc
  | EndBit
  | Index
  | DataTimeout
  | DataCrc
  | DataEndBit
  | BusPower
  | CurrentLimit
  | Acmd12Error
  | AdmaError
  | InvalidResponse
  | NoCard
  | UnsupportedCard
  | IoError
  | CommandError
  | DataError
  | MemoryError
  | InvalidArgument
  | BadMessage
  | BusWidth
  | TransferError
  | InvalidResponseType
  deriving DecidableEq, Repr

/-! ### Constants from `src/emmc/constant.rs` and `src/emmc/cmd.rs` -/

def EMMC_DATA_INHIBIT : Nat := 0x00000001
def EMMC_CMD_INHIBIT : Nat := 0x00000002
def EMMC_WRITE_PROTECT : Nat := 0x00080000

def EMMC_INT_RESPONSE : Nat := 0x00000001
def EMMC_INT_DATA_END : Nat := 0x00000002
def EMMC_INT_ERROR : Nat := 0x00008000

def EMMC_RESET_CMD : Nat := 0x02
def EMMC_RESET_DATA : Nat := 0x04

def MMC_GO_IDLE_STATE : Nat := 0
def MMC_SEND_OP_COND : Nat := 1
def MMC_ALL_SEND_CID : Nat := 2
def MMC_SET_RELATIVE_ADDR : Nat := 3
def MMC_SWITCH : Nat := 6
def MMC_SELECT_CARD : Nat := 7
def MMC_SEND_CSD : Nat := 9
def MMC_STOP_TRANSMISSION : Nat := 12
def MMC_READ_SINGLE_BLOCK : Nat := 17
def MMC_READ_MULTIPLE_BLOCK : Nat := 18
def MMC_SET_BLOCK_COUNT : Nat := 23
def MMC_WRITE_BLOCK : Nat := 24
def MMC_WRITE_MULTIPLE_BLOCK : Nat := 25

def MMC_RSP_PRESENT : Nat := 1 <<< 0
def MMC_RSP_136 : Nat := 1 <<< 1
def MMC_RSP_CRC : Nat := 1 <<< 2
def MMC_RSP_BUSY : Nat := 1 <<< 3
def MMC_RSP_OPCODE : Nat := 1 <<< 4

def MMC_RSP_NONE : Nat := 0
def MMC_RSP_R1 : Nat := MMC_RSP_PRESENT ||| MMC_RSP_CRC ||| MMC_RSP_OPCODE
def MMC_RSP_R1B : Nat := MMC_RSP_PRESENT ||| MMC_RSP_CRC ||| MMC_RSP_OPCODE ||| MMC_RSP_BUSY
def MMC_RSP_R2 : Nat := MMC_RSP_PRESENT ||| MMC_RSP_136 ||| MMC_RSP_CRC
def MMC_RSP_R3 : Nat := MMC_RSP_PRESENT

def MMC_STATE_HIGHCAPACITY : Nat := 1 <<< 4

/-- From `src/emmc/cmd.rs`: `CMD_DEFAULT_TIMEOUT`. -/
def CMD_DEFAULT_TIMEOUT : Nat := 100
/-- From `src/emmc/cmd.rs`: `CMD_MAX_TIMEOUT`. -/
def CMD_MAX_TIMEOUT : Nat := 500

/-! ### Command descriptor (`EMmcCommand`, `src/emmc/cmd.rs`) -/

/-- `EMmcCommand` from `src/emmc/cmd.rs`.  Fields as in the source; `arg`
is a `u32`, `block_size`/`block_count` are `u16`. -/
structure EMmcCommand where
  opcode : Nat
  arg : Nat
  resp_type : Nat
  data_present : Bool
  data_dir_read : Bool
  block_size : Nat
  block_count : Nat
  deriving DecidableEq, Repr

/-- `EMmcCommand::new` from `src/emmc/cmd.rs`. -/
def EMmcCommand.new (opcode arg resp_type : Nat) : EMmcCommand :=
  { opcode := opcode, arg := arg, resp_type := resp_type,
    data_present := false, data_dir_read := true,
    block_size := 0, block_count := 0 }

/-- `EMmcCommand::with_data` from `src/emmc/cmd.rs`. -/
def EMmcCommand.with_data (c : EMmcCommand) (block_size block_count : Nat)
    (is_read : Bool) : EMmcCommand :=
  { c with data_present := true, data_dir_read := is_read,
           block_size := block_size, block_count := block_count }

/-! ### Block-layer state (`EMmcCard` and host, `src/emmc/block.rs`) -/

/-- The fields of `EMmcCard` (`src/emmc/block.rs`) that the block transfer
layer consults: the `state` bit-set (the high-capacity bit
`MMC_STATE_HIGHCAPACITY` is set during OCR negotiation in
`mmc_send_op_cond`) and the `initialized` flag. -/
structure EMmcCard where
  state : Nat
  initialized : Bool
  deriving DecidableEq, Repr

/-- The host-controller facts the block transfer layer reads: the optional
card, and the `EMMC_WRITE_PROTECT` bit of the present-state register
(`is_write_protected`, `src/emmc/mod.rs`). -/
structure BlockHost where
  card : Option EMmcCard
  write_protect : Bool
  deriving DecidableEq, Repr

/-- `EMmcHost::is_write_protected` from `src/emmc/mod.rs`: tests the
`EMMC_WRITE_PROTECT` bit of the present-state register. -/
def BlockHost.is_write_protected (h : BlockHost) : Bool :=
  h.write_protect

/-- Outcome of one block-layer entry point: the list of commands handed to
`send_command`, in order, and the returned result (`none` = `Ok(())`). -/
structure BlockOpTrace where
  cmds : List EMmcCommand
  result : Option SdError
  deriving DecidableEq, Repr

/-- Oracle for the results of the successive `send_command` calls made by a
block-layer routine: `sendErr i` is the error (if any) of the `i`-th call. -/
def SendOracle := Nat → Option SdError

/-- `EMmcHost::read_block` from `src/emmc/block.rs` (single-block read).
The source checks `buffer.len() != 512` and card presence; the
logical-to-byte address translation is commented out in the source, so the
command argument is `block_addr` itself. -/
def read_block (h : BlockHost) (send : SendOracle) (block_addr : Nat)
    (buffer_len : Nat) : BlockOpTrace :=
  if buffer_len ≠ 512 then ⟨[], some .IoError⟩
  else match h.card with
  | none => ⟨[], some .NoCard⟩
  | some _card =>
    let cmd := (EMmcCommand.new MMC_READ_SINGLE_BLOCK block_addr MMC_RSP_R1).with_data 512 1 true
    match send 0 with
    | some e => ⟨[cmd], some e⟩
    | none => ⟨[cmd], none⟩

/-- `EMmcHost::write_block` from `src/emmc/block.rs` (single-block write,
`use_dma = true` path as in the source).  The `initialized` and
write-protect checks are commented out in the source; the address
translation by `card.state & MMC_STATE_HIGHCAPACITY` is live. -/
def write_block (h : BlockHost) (send : SendOracle) (block_addr : Nat)
    (buffer_len : Nat) : BlockOpTrace :=
  if buffer_len ≠ 512 then ⟨[], some .IoError⟩
  else match h.card with
  | none => ⟨[], some .NoCard⟩
  | some card =>
    let addr := if card.state &&& MMC_STATE_HIGHCAPACITY ≠ 0 then block_addr
                else (block_addr * 512) % 2 ^ 32
    let cmd := (EMmcCommand.new MMC_WRITE_BLOCK addr MMC_RSP_R1).with_data 512 1 false
    match send 0 with
    | some e => ⟨[cmd], some e⟩
    | none => ⟨[cmd], none⟩

/-- `EMmcHost::write_blocks` from `src/emmc/block.rs` (`use_dma = true`
path as in the source): length check, card presence, `initialized` check,
write-protect check, address translation, one `WRITE_MULTIPLE_BLOCK` data
command, then one `STOP_TRANSMISSION`. -/
def write_blocks (h : BlockHost) (send : SendOracle) (block_addr : Nat)
    (blocks : Nat) (buffer_len : Nat) : BlockOpTrace :=
  if buffer_len ≠ blocks * 512 then ⟨[], some .IoError⟩
  else match h.card with
  | none => ⟨[], some .NoCard⟩
  | some card =>
    if ¬ card.initialized then ⟨[], some .UnsupportedCard⟩
    else if h.is_write_protected then ⟨[], some .IoError⟩
    else
      let addr := if card.state &&& MMC_STATE_HIGHCAPACITY ≠ 0 then block_addr
                  else (block_addr * 512) % 2 ^ 32
      let cmd := (EMmcCommand.new MMC_WRITE_MULTIPLE_BLOCK addr MMC_RSP_R1).with_data 512 blocks false
      match send 0 with
      | some e => ⟨[cmd], some e⟩
      | none =>
        let stop := EMmcCommand.new MMC_STOP_TRANSMISSION 0 MMC_RSP_R1B
        match send 1 with
        | some e => ⟨[cmd, stop], some e⟩
        | none => ⟨[cmd, stop], none⟩

/-- `EMmcHost::read_blocks` from `src/emmc/block.rs` (`use_dma = true` path
as in the source): length check, card presence, `initialized` check,
address translation, one `READ_MULTIPLE_BLOCK` data command, then one
`STOP_TRANSMISSION` (issued outside the `use_dma` branch in the source,
hence unconditionally). -/
def read_blocks (h : BlockHost) (send : SendOracle) (block_addr : Nat)
    (blocks : Nat) (buffer_len : Nat) : BlockOpTrace :=
  if buffer_len ≠ blocks * 512 then ⟨[], some .IoError⟩
  else match h.card with
  | none => ⟨[], some .NoCard⟩
  | some card =>
    if ¬ card.initialized then ⟨[], some .UnsupportedCard⟩
    else
      let addr := if card.state &&& MMC_STATE_HIGHCAPACITY ≠ 0 then block_addr
                  else (block_addr * 512) % 2 ^ 32
      let cmd := (EMmcCommand.new MMC_READ_MULTIPLE_BLOCK addr MMC_RSP_R1).with_data 512 blocks true
      match send 0 with
      | some e => ⟨[cmd], some e⟩
      | none =>
        let stop := EMmcCommand.new MMC_STOP_TRANSMISSION 0 MMC_RSP_R1B
        match send 1 with
        | some e => ⟨[cmd, stop], some e⟩
        | none => ⟨[cmd, stop], none⟩

/-- The address translation the specification describes ("block-address when
high-capacity, `addr × 512` otherwise"), as a standalone definition for
comparison with the block-layer routines. -/
def translate_spec (block_addr : Nat) (hc : Bool) : Nat :=
  if hc then block_addr else (block_addr * 512) % 2 ^ 32

/-- Oracle that always reports success of `send_command`. -/
def sendOk : SendOracle := fun _ => none

/-! ### The command execution engine (`send_command`, `src/emmc/cmd.rs`) -/

/-- Outcome of the inhibit-wait phase of `send_command`
(`src/emmc/cmd.rs` lines 102-120).  The source loop has no error return:
it exits either because the inhibit bits cleared (`cleared`) or because the
adaptive timeout can no longer be doubled, in which case it `break`s and
the command is issued anyway (`gaveUp`).  `escalations` records the
successive doubled values taken by `cmd_timeout`.  `fuelOut` is an
artifact of the fuel-based recursion and is proved unreachable. -/
inductive InhibitOutcome where
  | cleared (escalations : List Nat)
  | gaveUp (escalations : List Nat)
  | fuelOut
  deriving DecidableEq, Repr

/-- The inhibit-wait loop of `send_command` (`src/emmc/cmd.rs` lines
102-120), one oracle read of `EMMC_PRESENT_STATE` per iteration (indexed
by `time`, which increments once per iteration).  The source: while the
mask is asserted, on `time >= cmd_timeout` either double `cmd_timeout`
(when `2 * cmd_timeout <= CMD_MAX_TIMEOUT`) or `break`; `time` increments
every iteration. -/
def inhibitWaitAux (present : Nat → Nat) (mask : Nat) :
    Nat → Nat → Nat → List Nat → InhibitOutcome
  | 0, _, _, _ => .fuelOut
  | fuel + 1, time, cmd_timeout, esc =>
    if present time &&& mask = 0 then .cleared esc.reverse
    else if cmd_timeout ≤ time then
      if 2 * cmd_timeout ≤ CMD_MAX_TIMEOUT then
        inhibitWaitAux present mask fuel (time + 1) (cmd_timeout + cmd_timeout)
          ((cmd_timeout + cmd_timeout) :: esc)
      else .gaveUp esc.reverse
    else inhibitWaitAux present mask fuel (time + 1) cmd_timeout esc

/-- Inhibit-wait phase from its initial state (`time = 0`,
`cmd_timeout = CMD_DEFAULT_TIMEOUT`); the fuel 1000 is proved sufficient
(`inhibitWait_ne_fuelOut`). -/
def inhibitWait (present : Nat → Nat) (mask : Nat) : InhibitOutcome :=
  inhibitWaitAux present mask 1000 0 CMD_DEFAULT_TIMEOUT []

/-- The inhibit mask computed by `send_command` (`src/emmc/cmd.rs` lines
91-99): command-inhibit, plus data-inhibit if `data_present`, with
data-inhibit stripped again for `STOP_TRANSMISSION`. -/
def inhibit_mask (cmd : EMmcCommand) : Nat :=
  let m := EMMC_CMD_INHIBIT ||| (if cmd.data_present then EMMC_DATA_INHIBIT else 0)
  if cmd.opcode = MMC_STOP_TRANSMISSION then
    m &&& (0xFFFFFFFF ^^^ EMMC_DATA_INHIBIT)
  else m

/-- The completion-interrupt mask of `send_command` (`src/emmc/cmd.rs`
lines 135-140): the response bit, plus the data-end bit for data commands
with a busy response. -/
def int_mask_for (cmd : EMmcCommand) : Nat :=
  EMMC_INT_RESPONSE |||
    (if cmd.data_present ∧ cmd.resp_type &&& MMC_RSP_BUSY ≠ 0 then EMMC_INT_DATA_END else 0)

/-- Outcome of the completion-wait loop of `send_command` (lines 234-257):
either the loop broke carrying the last observed status, or its own fixed
timeout expired, which returns `Err(Timeout)` directly. -/
inductive CmdWaitOutcome where
  | done (status : Nat)
  | timedOut
  deriving DecidableEq, Repr

/-- Completion-wait loop of `send_command` (`src/emmc/cmd.rs` lines
234-257): poll `EMMC_NORMAL_INT_STAT` (oracle `stat`, indexed by
iteration); break on any error bit or once `int_mask` is fully set;
`Err(Timeout)` when `timeout_val` runs out.  `timeout_val` starts at
`CMD_MAX_TIMEOUT` for `GO_IDLE_STATE`/`SEND_OP_COND` and at
`CMD_DEFAULT_TIMEOUT` otherwise (lines 225-229). -/
def cmdWaitAux (stat : Nat → Nat) (int_mask : Nat) :
    Nat → Nat → CmdWaitOutcome
  | timeout_val, i =>
    let status := stat i
    if status &&& EMMC_INT_ERROR ≠ 0 then .done status
    else if status &&& int_mask = int_mask then .done status
    else match timeout_val with
    | 0 => .timedOut
    | tv + 1 => cmdWaitAux stat int_mask tv (i + 1)

/-- Error classification of the command-error branch of `send_command`
(`src/emmc/cmd.rs` lines 279-297): the fixed if-else chain over the
`EMMC_ERROR_INT_STAT` bits. -/
def classifyCmdError (err_status : Nat) : SdError :=
  if err_status &&& 0x1 ≠ 0 then .Timeout
  else if err_status &&& 0x2 ≠ 0 then .Crc
  else if err_status &&& 0x4 ≠ 0 then .EndBit
  else if err_status &&& 0x8 ≠ 0 then .Index
  else if err_status &&& 0x10 ≠ 0 then .DataTimeout
  else if err_status &&& 0x20 ≠ 0 then .DataCrc
  else if err_status &&& 0x40 ≠ 0 then .DataEndBit
  else if err_status &&& 0x80 ≠ 0 then .CurrentLimit
  else .CommandError

/-- Data-error classification used by the data-end wait loops of
`send_command` (`src/emmc/cmd.rs` lines 335-343 and 414-422). -/
def classifyDataError (err_status : Nat) : SdError :=
  if err_status &&& 0x10 ≠ 0 then .DataTimeout
  else if err_status &&& 0x20 ≠ 0 then .DataCrc
  else if err_status &&& 0x40 ≠ 0 then .DataEndBit
  else .DataError

/-- A software line reset issued through `EMMC_SOFTWARE_RESET`:
`reset_cmd`/`reset(EMMC_RESET_CMD)` or `reset_data`/`reset(EMMC_RESET_DATA)`. -/
inductive ResetEvent where
  | cmd
  | data
  deriving DecidableEq, Repr

/-- Outcome of one data-end wait loop (read path lines 312-357, write path
lines 397-436 of `src/emmc/cmd.rs`; the two loops are textually identical
apart from the PIO buffer pump, which has no protocol-level effect here):
completion, or failure (`classifyDataError` of the error status, or
`DataTimeout` on expiry), each failure preceded by a data-line reset. -/
def dataEndWait (dstat derr : Nat → Nat) :
    Nat → Nat → Option SdError
  | timeout_val, i =>
    let status := dstat i
    if status &&& EMMC_INT_DATA_END ≠ 0 then none
    else if status &&& EMMC_INT_ERROR ≠ 0 then some (classifyDataError (derr i))
    else match timeout_val with
    | 0 => some .DataTimeout
    | tv + 1 => dataEndWait dstat derr tv (i + 1)

/-- All hardware observations one `send_command` run can make, as oracles:
present-state reads (inhibit loop), normal-interrupt-status reads
(completion loop), the error-status read of the command-error branch,
normal/error-status reads of the data-end loop, whether the PIO
multi-block write pump timed out (lines 361-392, abstracted to its only
externally visible outcome), and whether the `i`-th software line reset
issued by this run fails to clear (the reset helpers' own timeout). -/
structure SendOracles where
  present : Nat → Nat
  stat : Nat → Nat
  errStat : Nat
  dstat : Nat → Nat
  derrStat : Nat → Nat
  writePumpTimedOut : Bool
  resetFails : Nat → Bool

/-- Result of one modelled `send_command` run: whether the command register
was programmed, the software line resets issued in order, and the returned
value (`none` = `Ok(())`). -/
structure SendResult where
  issued : Bool
  resets : List ResetEvent
  result : Option SdError
  deriving DecidableEq, Repr

/-- The kind of caller buffer, as in `DataBuffer` (`src/emmc/block.rs`):
`some true` = `Read`, `some false` = `Write`, `none` = no buffer. -/
abbrev BufferKind := Option Bool

/-- The data phase of `send_command` (`src/emmc/cmd.rs` lines 302-444):
for a read buffer, the data-end wait loop followed by the PIO buffer read;
for a write buffer, the multi-block PIO pump (abstracted to whether it
timed out) followed by the data-end wait loop; mismatched or missing
buffers are `InvalidArgument`.  Returns the data-line resets issued and
the error, `none` meaning the data phase completed (or there was none). -/
def dataPhase (cmd : EMmcCommand) (buffer : BufferKind) (o : SendOracles) :
    List ResetEvent × Option SdError :=
  if cmd.data_present then
    match buffer, cmd.data_dir_read with
    | some true, true =>
      match dataEndWait o.dstat o.derrStat CMD_DEFAULT_TIMEOUT 0 with
      | none => ([], none)
      | some e =>
        if o.resetFails 0 then ([.data], some .Timeout)
        else ([.data], some e)
    | some false, false =>
      if 1 < cmd.block_count ∧ o.writePumpTimedOut then
        if o.resetFails 0 then ([.data], some .Timeout)
        else ([.data], some .DataTimeout)
      else
        match dataEndWait o.dstat o.derrStat CMD_DEFAULT_TIMEOUT 0 with
        | none => ([], none)
        | some e =>
          if o.resetFails 0 then ([.data], some .Timeout)
          else ([.data], some e)
    | _, _ => ([], some .InvalidArgument)
  else ([], none)

/-- `EMmcHost::send_command` from `src/emmc/cmd.rs`, as a pure function of
the oracles.  Control flow follows the source: inhibit wait (never fails:
both `cleared` and `gaveUp` fall through), pre-issue buffer validation
(lines 164-190), command issue, completion wait, success test
`(status & (EMMC_INT_ERROR | int_mask)) == int_mask` (line 260), the
command-error branch with its line resets and `classifyCmdError`
(lines 264-299), the data phase, and the closing resets of both lines
before `Ok(())` (lines 446-450).  Register writes other than resets are
not traced; `issued` records that control reached the command register
write (line 221). -/
def send_command (cmd : EMmcCommand) (buffer : BufferKind) (o : SendOracles) : SendResult :=
  match inhibitWait o.present (inhibit_mask cmd) with
  | .fuelOut => ⟨false, [], some .Timeout⟩
  | _ =>
    -- pre-issue data set-up and buffer validation (lines 143-190)
    let valid : Option SdError :=
      if cmd.data_present then
        match buffer, cmd.data_dir_read with
        | some true, true => none
        | some false, false => none
        | some _, _ => some .InvalidArgument
        | none, _ => some .InvalidArgument
      else none
    match valid with
    | some e => ⟨false, [], some e⟩
    | none =>
      -- command register written (line 221)
      match cmdWaitAux o.stat (int_mask_for cmd)
          (if cmd.opcode = MMC_GO_IDLE_STATE ∨ cmd.opcode = MMC_SEND_OP_COND then
            CMD_MAX_TIMEOUT else CMD_DEFAULT_TIMEOUT) 0 with
      | .timedOut => ⟨true, [], some .Timeout⟩
      | .done status =>
        if status &&& (EMMC_INT_ERROR ||| int_mask_for cmd) = int_mask_for cmd then
          -- command completed; data phase if present (lines 302-444)
          match dataPhase cmd buffer o with
          | (rs, some e) => ⟨true, rs, some e⟩
          | (rs, none) =>
            -- closing resets of both lines before Ok (lines 446-450)
            if o.resetFails rs.length then ⟨true, rs ++ [.cmd], some .Timeout⟩
            else if o.resetFails (rs.length + 1) then
              ⟨true, rs ++ [.cmd, .data], some .Timeout⟩
            else ⟨true, rs ++ [.cmd, .data], none⟩
        else
          -- command-error branch (lines 264-299)
          if o.resetFails 0 then ⟨true, [.cmd], some .Timeout⟩
          else if cmd.data_present then
            if o.resetFails 1 then ⟨true, [.cmd, .data], some .Timeout⟩
            else ⟨true, [.cmd, .data], some (classifyCmdError o.errStat)⟩
          else ⟨true, [.cmd], some (classifyCmdError o.errStat)⟩

/-- Reference trajectory of the inhibit-wait loop when the inhibit mask is
asserted at every read: the oracle branch never fires, leaving a purely
arithmetic recursion.  Used to settle how the adaptive timeout escalates. -/
def busyInhibitRef : Nat → Nat → Nat → List Nat → InhibitOutcome
  | 0, _, _, _ => .fuelOut
  | fuel + 1, time, cmd_timeout, esc =>
    if cmd_timeout ≤ time then
      if 2 * cmd_timeout ≤ CMD_MAX_TIMEOUT then
        busyInhibitRef fuel (time + 1) (cmd_timeout + cmd_timeout)
          ((cmd_timeout + cmd_timeout) :: esc)
      else .gaveUp esc.reverse
    else busyInhibitRef fuel (time + 1) cmd_timeout esc

lemma inhibitWaitAux_busy (present : Nat → Nat) (mask : Nat)
    (h : ∀ i, present i &&& mask ≠ 0) :
    ∀ fuel time cmd_timeout esc,
      inhibitWaitAux present mask fuel time cmd_timeout esc =
        busyInhibitRef fuel time cmd_timeout esc := by
  intro fuel
  induction fuel with
  | zero => intro time ct esc; rfl
  | succ n ih =>
    intro time ct esc
    rw [inhibitWaitAux, busyInhibitRef, if_neg (h time)]
    split
    · split
      · exact ih _ _ _
      · rfl
    · exact ih _ _ _

lemma inhibitWaitAux_ne_fuelOut (present : Nat → Nat) (mask : Nat) :
    ∀ fuel time cmd_timeout esc, time ≤ cmd_timeout →
      (cmd_timeout = 100 ∨ cmd_timeout = 200 ∨ cmd_timeout = 400) →
      1000 ≤ fuel + time + cmd_timeout →
      inhibitWaitAux present mask fuel time cmd_timeout esc ≠ .fuelOut := by
  intro fuel
  induction fuel with
  | zero => intro time ct esc h1 h2 h3; omega
  | succ n ih =>
    intro time ct esc h1 h2 h3
    rw [inhibitWaitAux]
    split
    · intro hc; cases hc
    · simp only [CMD_MAX_TIMEOUT]
      split
      · split
        · exact ih (time + 1) (ct + ct) _ (by omega) (by omega) (by omega)
        · intro hc; cases hc
      · have hlt : time < ct := by omega
        exact ih (time + 1) ct esc (by omega) h2 (by omega)

/-- The inhibit-wait fuel of 1000 never runs out from the initial state. -/
lemma inhibitWait_ne_fuelOut (present : Nat → Nat) (mask : Nat) :
    inhibitWait present mask ≠ .fuelOut := by
  unfold inhibitWait CMD_DEFAULT_TIMEOUT
  exact inhibitWaitAux_ne_fuelOut present mask 1000 0 100 [] (by omega) (by omega) (by omega)

/-- A present-state oracle that reports the command-inhibit bit asserted
forever. -/
def alwaysBusyPresent : Nat → Nat := fun _ => EMMC_CMD_INHIBIT

/-- A benign oracle set for `send_command` except that the present-state
register holds the command-inhibit bit asserted at every read: the
completion wait sees the response bit immediately and no reset fails. -/
def busyInhibitOracles : SendOracles :=
  { present := alwaysBusyPresent
    stat := fun _ => EMMC_INT_RESPONSE
    errStat := 0
    dstat := fun _ => EMMC_INT_DATA_END
    derrStat := fun _ => 0
    writePumpTimedOut := false
    resetFails := fun _ => false }

def MMC_SEND_STATUS : Nat := 13

/-- C3 counterexample: with the inhibit mask asserted at every
present-state read (so every doubling of the adaptive timeout is used up
and the next doubling would exceed `CMD_MAX_TIMEOUT`), `send_command` does
NOT fail with `Timeout` without issuing the command: it issues the command
anyway and, with a benign completion status, returns `Ok(())`. -/
theorem c3_counterexample :
    (send_command (EMmcCommand.new MMC_SEND_STATUS 0 MMC_RSP_R1) none busyInhibitOracles).issued
        = true ∧
      (send_command (EMmcCommand.new MMC_SEND_STATUS 0 MMC_RSP_R1) none
          busyInhibitOracles).result ≠ some SdError.Timeout := by
  constructor <;> decide

/-- C3 (amended): in the inhibit-wait phase of `send_command`, for every
present-state sequence that keeps the inhibit mask asserted, the adaptive
timeout starts at `CMD_DEFAULT_TIMEOUT = 100` and is doubled on each expiry
while the doubled value stays within `CMD_MAX_TIMEOUT` (escalating exactly
through 200 and 400); when the next doubling would exceed the ceiling the
wait is abandoned (`gaveUp`) and `send_command` proceeds to issue the
command — the inhibit phase never returns a `Timeout` error. -/
theorem c3_inhibit_escalation (present : Nat → Nat) (mask : Nat)
    (h : ∀ i, present i &&& mask ≠ 0) :
    inhibitWait present mask = .gaveUp [200, 400] := by
  unfold inhibitWait
  rw [inhibitWaitAux_busy present mask h]
  decide

/-- Witness for `c3_inhibit_escalation` at the concrete always-busy oracle
and the command-inhibit mask. -/
theorem c3_inhibit_escalation_witness :
    inhibitWait alwaysBusyPresent EMMC_CMD_INHIBIT = .gaveUp [200, 400] :=
  c3_inhibit_escalation alwaysBusyPresent EMMC_CMD_INHIBIT
    (fun _ => by unfold alwaysBusyPresent EMMC_CMD_INHIBIT; decide)

lemma and_errbit_or_ne {st m : Nat} (herr : st &&& EMMC_INT_ERROR ≠ 0)
    (hm : m &&& EMMC_INT_ERROR = 0) : st &&& (EMMC_INT_ERROR ||| m) ≠ m := by
  have h15 : EMMC_INT_ERROR = 2 ^ 15 := by decide
  rw [h15] at herr hm ⊢
  rw [Nat.and_two_pow] at herr hm
  have hst : st.testBit 15 = true := by
    by_contra hb
    rw [Bool.not_eq_true] at hb
    rw [hb] at herr
    simp at herr
  have hmb : m.testBit 15 = false := by
    by_contra hb
    rw [Bool.not_eq_false] at hb
    rw [hb] at hm
    simp at hm
  intro hEq
  have h2 := congrArg (fun x => Nat.testBit x 15) hEq
  simp only [Nat.testBit_land, Nat.testBit_lor, Nat.testBit_two_pow_self, hst, hmb,
    Bool.true_and, Bool.true_or] at h2
  exact absurd h2 (by decide)

lemma int_mask_for_and_err (cmd : EMmcCommand) :
    int_mask_for cmd &&& EMMC_INT_ERROR = 0 := by
  unfold int_mask_for
  split <;> decide

/-- C5: whenever the command-completion wait of `send_command` breaks with
an error-status bit observed, the engine resets the command line, resets
the data line iff the command had `data_present`, and returns the error
obtained by checking the error-interrupt-status bits in the fixed order
`0x1 → Timeout, 0x2 → Crc, 0x4 → EndBit, 0x8 → Index, 0x10 → DataTimeout,
0x20 → DataCrc, 0x40 → DataEndBit, 0x80 → CurrentLimit`, with
`CommandError` when no listed bit is set — immediately, with no retry. -/
theorem c5_error_reset_and_classification :
    (∀ (cmd : EMmcCommand) (buffer : BufferKind) (o : SendOracles) (st : Nat),
      (cmd.data_present = true → buffer = some cmd.data_dir_read) →
      cmdWaitAux o.stat (int_mask_for cmd)
          (if cmd.opcode = MMC_GO_IDLE_STATE ∨ cmd.opcode = MMC_SEND_OP_COND then
            CMD_MAX_TIMEOUT else CMD_DEFAULT_TIMEOUT) 0 = .done st →
      st &&& EMMC_INT_ERROR ≠ 0 →
      o.resetFails 0 = false → o.resetFails 1 = false →
      send_command cmd buffer o =
        ⟨true, .cmd :: (if cmd.data_present then [.data] else []),
          some (classifyCmdError o.errStat)⟩) ∧
    (∀ e : Nat,
      (classifyCmdError e = .Timeout ↔ e &&& 0x1 ≠ 0) ∧
      (classifyCmdError e = .Crc ↔ e &&& 0x1 = 0 ∧ e &&& 0x2 ≠ 0) ∧
      (classifyCmdError e = .EndBit ↔ e &&& 0x1 = 0 ∧ e &&& 0x2 = 0 ∧ e &&& 0x4 ≠ 0) ∧
      (classifyCmdError e = .Index ↔
        e &&& 0x1 = 0 ∧ e &&& 0x2 = 0 ∧ e &&& 0x4 = 0 ∧ e &&& 0x8 ≠ 0) ∧
      (classifyCmdError e = .DataTimeout ↔
        e &&& 0x1 = 0 ∧ e &&& 0x2 = 0 ∧ e &&& 0x4 = 0 ∧ e &&& 0x8 = 0 ∧
        e &&& 0x10 ≠ 0) ∧
      (classifyCmdError e = .DataCrc ↔
        e &&& 0x1 = 0 ∧ e &&& 0x2 = 0 ∧ e &&& 0x4 = 0 ∧ e &&& 0x8 = 0 ∧
        e &&& 0x10 = 0 ∧ e &&& 0x20 ≠ 0) ∧
      (classifyCmdError e = .DataEndBit ↔
        e &&& 0x1 = 0 ∧ e &&& 0x2 = 0 ∧ e &&& 0x4 = 0 ∧ e &&& 0x8 = 0 ∧
        e &&& 0x10 = 0 ∧ e &&& 0x20 = 0 ∧ e &&& 0x40 ≠ 0) ∧
      (classifyCmdError e = .CurrentLimit ↔
        e &&& 0x1 = 0 ∧ e &&& 0x2 = 0 ∧ e &&& 0x4 = 0 ∧ e &&& 0x8 = 0 ∧
        e &&& 0x10 = 0 ∧ e &&& 0x20 = 0 ∧ e &&& 0x40 = 0 ∧ e &&& 0x80 ≠ 0) ∧
      (classifyCmdError e = .CommandError ↔
        e &&& 0x1 = 0 ∧ e &&& 0x2 = 0 ∧ e &&& 0x4 = 0 ∧ e &&& 0x8 = 0 ∧
        e &&& 0x10 = 0 ∧ e &&& 0x20 = 0 ∧ e &&& 0x40 = 0 ∧ e &&& 0x80 = 0)) := by
  constructor
  · intro cmd buffer o st hbuf hwait herr hr0 hr1
    unfold send_command
    rcases hio : inhibitWait o.present (inhibit_mask cmd) with esc | esc | _
    · rcases hdp : cmd.data_present with _ | _
      · simp only [hdp, Bool.false_eq_true, if_false, hwait, hr0, hr1,
          if_neg (and_errbit_or_ne herr (int_mask_for_and_err cmd))]
      · have hb := hbuf hdp
        rcases hdir : cmd.data_dir_read with _ | _ <;>
          simp only [hdp, if_true, hb, hdir, hwait, hr0, hr1,
            if_neg (and_errbit_or_ne herr (int_mask_for_and_err cmd)),
            Bool.false_eq_true, if_false]
    · rcases hdp : cmd.data_present with _ | _
      · simp only [hdp, Bool.false_eq_true, if_false, hwait, hr0, hr1,
          if_neg (and_errbit_or_ne herr (int_mask_for_and_err cmd))]
      · have hb := hbuf hdp
        rcases hdir : cmd.data_dir_read with _ | _ <;>
          simp only [hdp, if_true, hb, hdir, hwait, hr0, hr1,
            if_neg (and_errbit_or_ne herr (int_mask_for_and_err cmd)),
            Bool.false_eq_true, if_false]
    · exact absurd hio (inhibitWait_ne_fuelOut o.present (inhibit_mask cmd))
  · intro e
    unfold classifyCmdError
    split_ifs <;> simp_all

/-- C10: whenever `send_command` returns `Ok(())` — the command completed
without an error interrupt, including its data phase if any — it has issued
a software reset of the command line and then of the data line just before
returning, on every success path. -/
lemma dataPhase_ok_resets (cmd : EMmcCommand) (buffer : BufferKind) (o : SendOracles) :
    (dataPhase cmd buffer o).2 = none → (dataPhase cmd buffer o).1 = [] := by
  unfold dataPhase
  (repeat' split) <;> simp_all

theorem c10_success_resets :
    ∀ (cmd : EMmcCommand) (buffer : BufferKind) (o : SendOracles),
      (send_command cmd buffer o).result = none →
      (send_command cmd buffer o).resets = [ResetEvent.cmd, ResetEvent.data] := by
  intro cmd buffer o
  unfold send_command
  rcases hio : inhibitWait o.present (inhibit_mask cmd) with esc | esc | _ <;>
    simp only [] <;>
    (repeat' split) <;> simp_all
  all_goals
    have h2 : (dataPhase cmd buffer o).2 = none := by simp_all
    have h1 := dataPhase_ok_resets cmd buffer o h2
    simp_all

/-- Oracle set on which every phase of `send_command` succeeds at once. -/
def okOracles : SendOracles :=
  { present := fun _ => 0
    stat := fun _ => EMMC_INT_RESPONSE ||| EMMC_INT_DATA_END
    errStat := 0
    dstat := fun _ => EMMC_INT_DATA_END
    derrStat := fun _ => 0
    writePumpTimedOut := false
    resetFails := fun _ => false }

/-- Oracle set whose completion wait observes the CRC error-status bit. -/
def crcErrOracles : SendOracles :=
  { present := fun _ => 0
    stat := fun _ => EMMC_INT_ERROR
    errStat := 0x2
    dstat := fun _ => 0
    derrStat := fun _ => 0
    writePumpTimedOut := false
    resetFails := fun _ => false }

/-- Witness for `c5_error_reset_and_classification`: a no-data `SEND_CSD`-style
command whose completion wait observes the CRC error bit resets the command
line only and returns `Err(Crc)`. -/
theorem c5_witness :
    send_command (EMmcCommand.new MMC_SEND_CSD 0x10000 MMC_RSP_R2) none crcErrOracles =
      ⟨true, [ResetEvent.cmd], some SdError.Crc⟩ := by
  have h := c5_error_reset_and_classification.1
    (EMmcCommand.new MMC_SEND_CSD 0x10000 MMC_RSP_R2) none crcErrOracles EMMC_INT_ERROR
    (by decide) (by decide) (by decide) rfl rfl
  simpa using h

/-- Witness for `c10_success_resets`: a fully successful command run ends
with the command-line and data-line resets. -/
theorem c10_witness :
    (send_command (EMmcCommand.new MMC_SEND_STATUS 0 MMC_RSP_R1) none okOracles).resets =
      [ResetEvent.cmd, ResetEvent.data] :=
  c10_success_resets (EMmcCommand.new MMC_SEND_STATUS 0 MMC_RSP_R1) none okOracles (by decide)

/-! ### Claims C1, C4, C9 — the block transfer layer -/

/-- A standard-capacity (`state = 0`), initialized card. -/
def stdCard : EMmcCard := ⟨0, true⟩

/-- Host with a standard-capacity initialized card, not write-protected. -/
def stdHost : BlockHost := ⟨some stdCard, false⟩

/-- Host with a standard-capacity initialized card whose present-state
write-protect bit is asserted. -/
def wpHost : BlockHost := ⟨some stdCard, true⟩

/-- C1 counterexample: on a standard-capacity card (`high_capacity` not
set), `read_block 1` programs the command argument as `1`, not as the byte
address `1 × 512` the claim requires uniformly of the single-block read
(the translation is commented out in `read_block`, `src/emmc/block.rs`
lines 193-203). -/
theorem c1_counterexample :
    ((read_block stdHost sendOk 1 512).cmds.map EMmcCommand.arg = [1]) ∧
      translate_spec 1 false = 512 ∧ (1 : Nat) ≠ 512 := by
  decide

/-- C1 (amended): the logical-to-physical address translation (`addr`
unchanged when the negotiated high-capacity state bit is set, `addr × 512`
otherwise) holds for `write_block`, `write_blocks` and `read_blocks`; the
single-block `read_block`, however, programs the caller's logical block
address unchanged regardless of the flag. -/
theorem c1_translation (card : EMmcCard) (wp : Bool) (send : SendOracle)
    (addr blocks : Nat) (hinit : card.initialized = true) :
    ((write_block ⟨some card, wp⟩ send addr 512).cmds.map EMmcCommand.arg =
      [translate_spec addr (decide (card.state &&& MMC_STATE_HIGHCAPACITY ≠ 0))]) ∧
    ((write_blocks ⟨some card, false⟩ send addr blocks (blocks * 512)).cmds.head?.map
      EMmcCommand.arg =
      some (translate_spec addr (decide (card.state &&& MMC_STATE_HIGHCAPACITY ≠ 0)))) ∧
    ((read_blocks ⟨some card, wp⟩ send addr blocks (blocks * 512)).cmds.head?.map
      EMmcCommand.arg =
      some (translate_spec addr (decide (card.state &&& MMC_STATE_HIGHCAPACITY ≠ 0)))) ∧
    ((read_block ⟨some card, wp⟩ send addr 512).cmds.map EMmcCommand.arg = [addr]) := by
  refine ⟨?_, ?_, ?_, ?_⟩
  · by_cases hc : card.state &&& MMC_STATE_HIGHCAPACITY ≠ 0 <;>
      rcases h0 : send 0 with _ | e <;>
      simp [write_block, translate_spec, hc, h0, EMmcCommand.new, EMmcCommand.with_data]
  · by_cases hc : card.state &&& MMC_STATE_HIGHCAPACITY ≠ 0 <;>
      rcases h0 : send 0 with _ | e <;>
      rcases h1 : send 1 with _ | e' <;>
      simp [write_blocks, BlockHost.is_write_protected, translate_spec, hc, h0, h1, hinit,
        EMmcCommand.new, EMmcCommand.with_data]
  · by_cases hc : card.state &&& MMC_STATE_HIGHCAPACITY ≠ 0 <;>
      rcases h0 : send 0 with _ | e <;>
      rcases h1 : send 1 with _ | e' <;>
      simp [read_blocks, translate_spec, hc, h0, h1, hinit,
        EMmcCommand.new, EMmcCommand.with_data]
  · rcases h0 : send 0 with _ | e <;>
      simp [read_block, h0, EMmcCommand.new, EMmcCommand.with_data]

/-- Witness for `c1_translation` at a concrete high-capacity card. -/
theorem c1_translation_witness :
    ((write_block ⟨some ⟨MMC_STATE_HIGHCAPACITY, true⟩, false⟩ sendOk 7 512).cmds.map
      EMmcCommand.arg =
      [translate_spec 7 (decide ((MMC_STATE_HIGHCAPACITY : Nat) &&&
        MMC_STATE_HIGHCAPACITY ≠ 0))]) ∧
    ((read_block ⟨some ⟨MMC_STATE_HIGHCAPACITY, true⟩, false⟩ sendOk 7 512).cmds.map
      EMmcCommand.arg = [7]) := by
  have h := c1_translation ⟨MMC_STATE_HIGHCAPACITY, true⟩ false sendOk 7 1 rfl
  exact ⟨h.1, h.2.2.2⟩

/-- C4 counterexample: with `count = 1`, `read_blocks` does not issue the
single-block `READ_SINGLE_BLOCK` command the claim requires: it issues
`READ_MULTIPLE_BLOCK` followed by `STOP_TRANSMISSION`, and likewise
`write_blocks` issues `WRITE_MULTIPLE_BLOCK`, not `WRITE_BLOCK`. -/
theorem c4_counterexample :
    ((read_blocks stdHost sendOk 0 1 512).cmds.map EMmcCommand.opcode =
      [MMC_READ_MULTIPLE_BLOCK, MMC_STOP_TRANSMISSION]) ∧
    MMC_READ_MULTIPLE_BLOCK ≠ MMC_READ_SINGLE_BLOCK ∧
    ((write_blocks stdHost sendOk 0 1 512).cmds.map EMmcCommand.opcode =
      [MMC_WRITE_MULTIPLE_BLOCK, MMC_STOP_TRANSMISSION]) ∧
    MMC_WRITE_MULTIPLE_BLOCK ≠ MMC_WRITE_BLOCK := by
  decide

/-- C4 (amended): for every block count (including `count = 1`),
`read_blocks`/`write_blocks` that pass their precondition checks issue the
multiple-block command and, once the data command returns, exactly one
`STOP_TRANSMISSION` — unconditionally on the (always-selected) DMA path. -/
theorem c4_multiple_block_stop (card : EMmcCard) (send : SendOracle)
    (addr blocks : Nat) (hinit : card.initialized = true)
    (h0 : send 0 = none) (h1 : send 1 = none) :
    ((read_blocks ⟨some card, false⟩ send addr blocks (blocks * 512)).cmds.map
      EMmcCommand.opcode = [MMC_READ_MULTIPLE_BLOCK, MMC_STOP_TRANSMISSION]) ∧
    ((read_blocks ⟨some card, false⟩ send addr blocks (blocks * 512)).result = none) ∧
    ((write_blocks ⟨some card, false⟩ send addr blocks (blocks * 512)).cmds.map
      EMmcCommand.opcode = [MMC_WRITE_MULTIPLE_BLOCK, MMC_STOP_TRANSMISSION]) ∧
    ((write_blocks ⟨some card, false⟩ send addr blocks (blocks * 512)).result = none) := by
  by_cases hc : card.state &&& MMC_STATE_HIGHCAPACITY ≠ 0 <;>
    simp [read_blocks, write_blocks, BlockHost.is_write_protected, hc, h0, h1, hinit,
      EMmcCommand.new, EMmcCommand.with_data]

/-- Witness for `c4_multiple_block_stop` at `count = 3`. -/
theorem c4_multiple_block_stop_witness :
    ((read_blocks ⟨some stdCard, false⟩ sendOk 10 3 1536).cmds.map
      EMmcCommand.opcode = [MMC_READ_MULTIPLE_BLOCK, MMC_STOP_TRANSMISSION]) ∧
    ((write_blocks ⟨some stdCard, false⟩ sendOk 10 3 1536).cmds.map
      EMmcCommand.opcode = [MMC_WRITE_MULTIPLE_BLOCK, MMC_STOP_TRANSMISSION]) := by
  have h := c4_multiple_block_stop stdCard sendOk 10 3 rfl rfl rfl
  exact ⟨h.1, h.2.2.1⟩

/-- C9 counterexample: `write_block` on a host whose write-protect
present-state bit is asserted does not return `IoError` without
programming a command — it issues the `WRITE_BLOCK` command and succeeds
(the check is commented out in `src/emmc/block.rs` lines 277-280). -/
theorem c9_counterexample :
    ((write_block wpHost sendOk 0 512).cmds.map EMmcCommand.opcode = [MMC_WRITE_BLOCK]) ∧
    (write_block wpHost sendOk 0 512).result = none := by
  decide

/-- C9 (amended): `write_blocks` checks the controller's write-protect
present-state bit before issuing any command and returns `IoError` with no
command issued when it is set; `write_block`, however, performs no
write-protect check and issues its command regardless of the bit. -/
theorem c9_write_protect (card : EMmcCard) (send : SendOracle)
    (addr blocks : Nat) (wp : Bool) (hinit : card.initialized = true) :
    (write_blocks ⟨some card, true⟩ send addr blocks (blocks * 512) =
      ⟨[], some SdError.IoError⟩) ∧
    ((write_block ⟨some card, wp⟩ send addr 512).cmds.map EMmcCommand.opcode =
      [MMC_WRITE_BLOCK]) := by
  constructor
  · simp [write_blocks, BlockHost.is_write_protected, hinit]
  · by_cases hc : card.state &&& MMC_STATE_HIGHCAPACITY ≠ 0 <;>
      rcases h0 : send 0 with _ | e <;>
      simp [write_block, hc, h0, EMmcCommand.new, EMmcCommand.with_data]

/-- Witness for `c9_write_protect` at the concrete write-protected host. -/
theorem c9_write_protect_witness :
    write_blocks ⟨some stdCard, true⟩ sendOk 0 2 1024 = ⟨[], some SdError.IoError⟩ :=
  (c9_write_protect stdCard sendOk 0 2 true rfl).1

/-! ### Claim C2 — CSD capacity computation (`init_card`, `src/emmc/mod.rs`) -/

/-- The `capacity_user` computation of `init_card` (`src/emmc/mod.rs` lines
258-285): extract `READ_BL_LEN` as the raw 4-bit exponent field, extract
`C_SIZE`/`C_MULT` with high-capacity-specific widths when `high_capacity`,
then `capacity_user = ((csize + 1) << (cmult + 2)) * read_bl_len` — the
multiplication is by the raw `read_bl_len` field.  The source computes in
`u64`; the values involved stay far below `2^64`, so plain `Nat` is exact. -/
def init_card_capacity_user (csd : Fin 4 → Nat) (high_capacity : Bool) : Nat :=
  let read_bl_len := (csd 1 >>> 16) &&& 0xf
  let csize :=
    if high_capacity then ((csd 1 &&& 0x3f) <<< 16) ||| ((csd 2 &&& 0xffff0000) >>> 16)
    else ((csd 1 &&& 0x3ff) <<< 2) ||| ((csd 2 &&& 0xc0000000) >>> 30)
  let cmult := if high_capacity then 8 else (csd 2 &&& 0x00038000) >>> 15
  ((csize + 1) <<< (cmult + 2)) * read_bl_len

/-- The textbook capacity formula the specification states: identical
`C_SIZE`/`C_MULT`/`READ_BL_LEN` field extraction, but multiplied by the
block size in bytes, `2 ^ READ_BL_LEN`, not by the raw exponent field. -/
def capacity_user_textbook (csd : Fin 4 → Nat) (high_capacity : Bool) : Nat :=
  let read_bl_len := (csd 1 >>> 16) &&& 0xf
  let csize :=
    if high_capacity then ((csd 1 &&& 0x3f) <<< 16) ||| ((csd 2 &&& 0xffff0000) >>> 16)
    else ((csd 1 &&& 0x3ff) <<< 2) ||| ((csd 2 &&& 0xc0000000) >>> 30)
  let cmult := if high_capacity then 8 else (csd 2 &&& 0x00038000) >>> 15
  ((csize + 1) <<< (cmult + 2)) * (2 ^ read_bl_len)

/-- A standard-capacity CSD with `READ_BL_LEN = 9` (512-byte blocks),
`C_SIZE = 0`, `C_SIZE_MULT = 0`. -/
def csdReadBl9 : Fin 4 → Nat := ![0, 0x90000, 0, 0]

/-- C2: at a CSD with `READ_BL_LEN = 9`, `C_SIZE = 0`, `C_SIZE_MULT = 0`,
the code computes `capacity_user = (0+1) << 2 * 9 = 36` — it multiplies by
the raw `READ_BL_LEN` exponent field — while the claimed formula
`(C_SIZE+1) << (C_SIZE_MULT+2) × 2^READ_BL_LEN` gives `4 × 512 = 2048`.
The clamp immediately below the computation (`read_bl_len >
MMC_MAX_BLOCK_LEN`, comparing the 4-bit exponent against a 512-byte block
length) and the later division of capacity by `read_bl_len` to obtain an
LBA count show that `read_bl_len` was intended to hold the block size in
bytes, so this is a defect of the code, not of the claim. -/
theorem c2_capacity_divergence :
    init_card_capacity_user csdReadBl9 false = 36 ∧
    capacity_user_textbook csdReadBl9 false = 2048 ∧
    init_card_capacity_user csdReadBl9 false ≠ capacity_user_textbook csdReadBl9 false := by
  refine ⟨?_, ?_, ?_⟩ <;> decide

/-! ### Claim C6 — `mmc_send_op_cond` (`src/emmc/cmd.rs` lines 511-588) -/

/-- The retry loop of `mmc_send_op_cond` (`while retry > 0 && !ready`):
each iteration sends `SEND_OP_COND` with the fixed `cmd_arg`, reads the R3
response (oracle `resp`, indexed by the send-command call number `i`), and
becomes ready iff the OCR busy bit `0x80000000` is set; otherwise `retry`
is decremented.  On exhaustion the caller returns `UnsupportedCard`.
Returns the commands issued by the loop and the final result. -/
def opCondLoop (send : Nat → Option SdError) (resp : Nat → Nat) (cmd_arg : Nat) :
    Nat → Nat → List EMmcCommand × Option SdError
  | 0, _ => ([], some .UnsupportedCard)
  | retry + 1, i =>
    let cmd := EMmcCommand.new MMC_SEND_OP_COND cmd_arg MMC_RSP_R3
    match send i with
    | some e => ([cmd], some e)
    | none =>
      if resp i &&& 0x80000000 ≠ 0 then ([cmd], none)
      else
        let rest := opCondLoop send resp cmd_arg retry (i + 1)
        (cmd :: rest.1, rest.2)

/-- `EMmcHost::mmc_send_op_cond` from `src/emmc/cmd.rs`: one initial
`SEND_OP_COND` with the caller's `ocr` argument, then the retry loop with
`cmd_arg = OCR_HCS | (voltages & (card_ocr & 0x007FFF80)) |
(card_ocr & 0x60000000)` computed from the first response. -/
def mmc_send_op_cond (send : Nat → Option SdError) (resp : Nat → Nat)
    (voltages ocr retry : Nat) : List EMmcCommand × Option SdError :=
  let first := EMmcCommand.new MMC_SEND_OP_COND ocr MMC_RSP_R3
  match send 0 with
  | some e => ([first], some e)
  | none =>
    let card_ocr := resp 0
    let cmd_arg := 0x40000000 ||| (voltages &&& (card_ocr &&& 0x007FFF80)) |||
      (card_ocr &&& 0x60000000)
    let rest := opCondLoop send resp cmd_arg retry 1
    (first :: rest.1, rest.2)

lemma opCondLoop_never_busy (send : Nat → Option SdError) (resp : Nat → Nat)
    (hsend : ∀ i, send i = none) (hbusy : ∀ i, resp i &&& 0x80000000 = 0) :
    ∀ cmd_arg retry i, opCondLoop send resp cmd_arg retry i =
      (List.replicate retry (EMmcCommand.new MMC_SEND_OP_COND cmd_arg MMC_RSP_R3),
        some SdError.UnsupportedCard) := by
  intro cmd_arg retry
  induction retry with
  | zero => intro i; rfl
  | succ n ih =>
    intro i
    rw [opCondLoop, hsend i, ih (i + 1)]
    simp [hbusy i, List.replicate_succ]

/-- C6: if the card's OCR busy bit is never reported set (and every
`send_command` succeeds), `mmc_send_op_cond` issues one initial query with
the caller's argument and then exactly `retry` further `SEND_OP_COND`
commands, all with the fixed computed argument, and returns
`Err(UnsupportedCard)`; it never loops unboundedly. -/
theorem c6_ocr_retry_bound (send : Nat → Option SdError) (resp : Nat → Nat)
    (voltages ocr retry : Nat) (hsend : ∀ i, send i = none)
    (hbusy : ∀ i, resp i &&& 0x80000000 = 0) :
    mmc_send_op_cond send resp voltages ocr retry =
      (EMmcCommand.new MMC_SEND_OP_COND ocr MMC_RSP_R3 ::
        List.replicate retry (EMmcCommand.new MMC_SEND_OP_COND
          (0x40000000 ||| (voltages &&& (resp 0 &&& 0x007FFF80)) |||
            (resp 0 &&& 0x60000000)) MMC_RSP_R3),
        some SdError.UnsupportedCard) := by
  unfold mmc_send_op_cond
  simp only [hsend 0, opCondLoop_never_busy send resp hsend hbusy]

/-- Witness for `c6_ocr_retry_bound`: a mock interface that always answers
`0` issues `1 + 3` commands for `retry = 3` and fails with
`UnsupportedCard`. -/
theorem c6_ocr_retry_bound_witness :
    mmc_send_op_cond (fun _ => none) (fun _ => 0) 0xFF8000 0 3 =
      (EMmcCommand.new MMC_SEND_OP_COND 0 MMC_RSP_R3 ::
        List.replicate 3 (EMmcCommand.new MMC_SEND_OP_COND 0x40000000 MMC_RSP_R3),
        some SdError.UnsupportedCard) := by
  have h := c6_ocr_retry_bound (fun _ => none) (fun _ => 0) 0xFF8000 0 3
    (fun _ => rfl) (fun _ => Nat.zero_and _)
  simpa using h

/-! ### Claim C7 — `mmc_select_bus_width` (`src/emmc/mod.rs` lines 675-744) -/

/-- From `src/emmc/constant.rs`: EXT_CSD bus-width field values. -/
def EXT_CSD_BUS_WIDTH_4 : Nat := 1
def EXT_CSD_BUS_WIDTH_8 : Nat := 2

/-- Modelled from the spec: the EXT_CSD byte offsets compared by the
switch-then-verify step (partitioning support, high-capacity
write-protect-group size, revision, high-capacity erase-group size, sector
count).  The numeric constants live in the repository's `config`/`info`
module, which is not present under `src/`; the JEDEC offsets are used. -/
def EXT_CSD_PARTITIONING_SUPPORT : Nat := 160
def EXT_CSD_REV : Nat := 192
def EXT_CSD_SEC_CNT : Nat := 212
def EXT_CSD_HC_WP_GRP_SIZE : Nat := 221
def EXT_CSD_HC_ERASE_GRP_SIZE : Nat := 224

/-- Modelled from the spec: the bus-width values handed to
`mmc_set_bus_width` (constants from the missing `config`/`info` module);
only their identity matters here. -/
def MMC_BUS_WIDTH_4BIT : Nat := 4
def MMC_BUS_WIDTH_8BIT : Nat := 8

/-- From `src/emmc/aux.rs`: `make_mmc_version` and `MMC_VERSION_4`. -/
def MMC_VERSION_MMC : Nat := 1 <<< 30
def make_mmc_version (a b c : Nat) : Nat :=
  MMC_VERSION_MMC ||| ((a <<< 16) ||| (b <<< 8) ||| c)
def MMC_VERSION_4 : Nat := make_mmc_version 4 0 0

/-- `EMmcHost::compare_sector_count` from `src/emmc/mod.rs`: the four
sector-count bytes must agree. -/
def compare_sector_count (ext_csd test_csd : Nat → Nat) : Bool :=
  (List.range 4).all fun i =>
    ext_csd (EXT_CSD_SEC_CNT + i) == test_csd (EXT_CSD_SEC_CNT + i)

/-- The acceptance comparison of `mmc_select_bus_width` (`src/emmc/mod.rs`
lines 728-736): the fixed EXT_CSD field set read after the switch must be
byte-identical to the pre-switch copy. -/
def ext_csd_fields_match (ext_csd test_csd : Nat → Nat) : Bool :=
  (ext_csd EXT_CSD_PARTITIONING_SUPPORT == test_csd EXT_CSD_PARTITIONING_SUPPORT) &&
  (ext_csd EXT_CSD_HC_WP_GRP_SIZE == test_csd EXT_CSD_HC_WP_GRP_SIZE) &&
  (ext_csd EXT_CSD_REV == test_csd EXT_CSD_REV) &&
  (ext_csd EXT_CSD_HC_ERASE_GRP_SIZE == test_csd EXT_CSD_HC_ERASE_GRP_SIZE) &&
  compare_sector_count ext_csd test_csd

/-- The candidate widths of `mmc_select_bus_width`, in the source's fixed
descending order (`bus_widths` array). -/
def bus_widths : List Nat := [MMC_BUS_WIDTH_8BIT, MMC_BUS_WIDTH_4BIT]

/-- The `while idx < bus_widths.len()` loop of `mmc_select_bus_width`
(`src/emmc/mod.rs` lines 705-743), with the per-candidate oracles
`switchOk idx` (did the `SWITCH`+busy-poll of `mmc_switch` succeed) and
`testRead idx` (the EXT_CSD contents re-read after the switch, `none` if
that read failed).  Returns the list of widths attempted in order together
with the result: `Ok(width)` on the first verified candidate,
`Err(BadMessage)` once the candidates are exhausted. -/
def selectBusWidthLoop (ext_csd : Nat → Nat) (switchOk : Nat → Bool)
    (testRead : Nat → Option (Nat → Nat)) (idx : Nat) :
    List Nat × Except SdError Nat :=
  if h : idx < bus_widths.length then
    let bw := bus_widths.get ⟨idx, h⟩
    if switchOk idx then
      match testRead idx with
      | some test_csd =>
        if ext_csd_fields_match ext_csd test_csd then ([bw], .ok bw)
        else
          let rest := selectBusWidthLoop ext_csd switchOk testRead (idx + 1)
          (bw :: rest.1, rest.2)
      | none =>
        let rest := selectBusWidthLoop ext_csd switchOk testRead (idx + 1)
        (bw :: rest.1, rest.2)
    else
      let rest := selectBusWidthLoop ext_csd switchOk testRead (idx + 1)
      (bw :: rest.1, rest.2)
  else ([], .error .BadMessage)
termination_by bus_widths.length - idx
decreasing_by all_goals (simp only [bus_widths, List.length_cons, List.length_nil] at h ⊢; omega)

/-- `EMmcHost::mmc_select_bus_width` from `src/emmc/mod.rs`: early
`Ok(0)` when the card is pre-4.0 or the host supports neither wide mode
(the 4-bit/8-bit bits of `host_caps` are abstracted to the Booleans
`host4`/`host8`, their mask constants living in the missing
`config`/`info` module); otherwise read EXT_CSD (`ext_csd_read`) and run
the candidate loop starting at index 0 when the host supports 8-bit mode
and at index 1 otherwise. -/
def mmc_select_bus_width (version : Nat) (host8 host4 : Bool)
    (ext_csd_read : Except SdError (Nat → Nat)) (switchOk : Nat → Bool)
    (testRead : Nat → Option (Nat → Nat)) : List Nat × Except SdError Nat :=
  if version < MMC_VERSION_4 ∨ (¬ host4 ∧ ¬ host8) then ([], .ok 0)
  else match ext_csd_read with
  | .error e => ([], .error e)
  | .ok ext_csd =>
    selectBusWidthLoop ext_csd switchOk testRead (if host8 then 0 else 1)

/-- Whether candidate `i` would be accepted: its switch succeeded, the
verification EXT_CSD read succeeded, and the compared fields are
byte-identical to the pre-switch copy. -/
def bus_width_accepts (ext_csd : Nat → Nat) (switchOk : Nat → Bool)
    (testRead : Nat → Option (Nat → Nat)) (i : Nat) : Bool :=
  switchOk i &&
    match testRead i with
    | some t => ext_csd_fields_match ext_csd t
    | none => false

lemma selectBusWidthLoop_accept (ext_csd : Nat → Nat) (switchOk : Nat → Bool)
    (testRead : Nat → Option (Nat → Nat)) (idx : Nat) (h : idx < bus_widths.length)
    (hacc : bus_width_accepts ext_csd switchOk testRead idx = true) :
    selectBusWidthLoop ext_csd switchOk testRead idx =
      ([bus_widths.get ⟨idx, h⟩], .ok (bus_widths.get ⟨idx, h⟩)) := by
  unfold bus_width_accepts at hacc
  rw [Bool.and_eq_true] at hacc
  rcases ht : testRead idx with _ | t
  · rw [ht] at hacc; simp at hacc
  · rw [ht] at hacc
    have hm : ext_csd_fields_match ext_csd t = true := hacc.2
    rw [selectBusWidthLoop, dif_pos h]
    simp [hacc.1, ht, hm]

lemma selectBusWidthLoop_reject (ext_csd : Nat → Nat) (switchOk : Nat → Bool)
    (testRead : Nat → Option (Nat → Nat)) (idx : Nat) (h : idx < bus_widths.length)
    (hacc : bus_width_accepts ext_csd switchOk testRead idx = false) :
    selectBusWidthLoop ext_csd switchOk testRead idx =
      (bus_widths.get ⟨idx, h⟩ ::
          (selectBusWidthLoop ext_csd switchOk testRead (idx + 1)).1,
        (selectBusWidthLoop ext_csd switchOk testRead (idx + 1)).2) := by
  unfold bus_width_accepts at hacc
  rw [selectBusWidthLoop, dif_pos h]
  rcases hs : switchOk idx with _ | _
  · simp [hs]
  · rw [hs, Bool.true_and] at hacc
    rcases ht : testRead idx with _ | t
    · simp [hs, ht]
    · rw [ht] at hacc
      have hm : ext_csd_fields_match ext_csd t = false := hacc
      simp [hs, ht, hm]

lemma selectBusWidthLoop_end (ext_csd : Nat → Nat) (switchOk : Nat → Bool)
    (testRead : Nat → Option (Nat → Nat)) :
    selectBusWidthLoop ext_csd switchOk testRead 2 = ([], .error .BadMessage) := by
  rw [selectBusWidthLoop]
  rfl

/-- C7: within one negotiation run (card version ≥ 4.0, host supporting
4-bit mode), `mmc_select_bus_width` attempts candidate widths in strictly
descending order — 8-bit first exactly when the host capability includes
8-bit mode, then 4-bit — never re-attempts a width, accepts a width
exactly when the switch succeeded and the re-read EXT_CSD field set
(partitioning support, hc write-protect-group size, revision, hc
erase-group size, four sector-count bytes) is byte-identical to the
pre-switch copy, and returns `Err(BadMessage)` once all candidates are
exhausted. -/
theorem c7_bus_width_selection (version : Nat) (host8 : Bool) (ext_csd : Nat → Nat)
    (switchOk : Nat → Bool) (testRead : Nat → Option (Nat → Nat))
    (hv : ¬ version < MMC_VERSION_4) :
    (mmc_select_bus_width version host8 true (.ok ext_csd) switchOk testRead).1 <+:
        (if host8 then [MMC_BUS_WIDTH_8BIT, MMC_BUS_WIDTH_4BIT]
          else [MMC_BUS_WIDTH_4BIT]) ∧
    (mmc_select_bus_width version host8 true (.ok ext_csd) switchOk testRead).1.Nodup ∧
    (host8 = true → bus_width_accepts ext_csd switchOk testRead 0 = true →
      mmc_select_bus_width version host8 true (.ok ext_csd) switchOk testRead =
        ([MMC_BUS_WIDTH_8BIT], .ok MMC_BUS_WIDTH_8BIT)) ∧
    (host8 = true → bus_width_accepts ext_csd switchOk testRead 0 = false →
      bus_width_accepts ext_csd switchOk testRead 1 = true →
      mmc_select_bus_width version host8 true (.ok ext_csd) switchOk testRead =
        ([MMC_BUS_WIDTH_8BIT, MMC_BUS_WIDTH_4BIT], .ok MMC_BUS_WIDTH_4BIT)) ∧
    (host8 = false → bus_width_accepts ext_csd switchOk testRead 1 = true →
      mmc_select_bus_width version host8 true (.ok ext_csd) switchOk testRead =
        ([MMC_BUS_WIDTH_4BIT], .ok MMC_BUS_WIDTH_4BIT)) ∧
    (host8 = true → bus_width_accepts ext_csd switchOk testRead 0 = false →
      bus_width_accepts ext_csd switchOk testRead 1 = false →
      mmc_select_bus_width version host8 true (.ok ext_csd) switchOk testRead =
        ([MMC_BUS_WIDTH_8BIT, MMC_BUS_WIDTH_4BIT], .error .BadMessage)) ∧
    (host8 = false → bus_width_accepts ext_csd switchOk testRead 1 = false →
      mmc_select_bus_width version host8 true (.ok ext_csd) switchOk testRead =
        ([MMC_BUS_WIDTH_4BIT], .error .BadMessage)) := by
  have hguard : ¬ (version < MMC_VERSION_4 ∨ (¬ true ∧ ¬ host8)) := by simp [hv]
  have hsel : mmc_select_bus_width version host8 true (.ok ext_csd) switchOk testRead =
      selectBusWidthLoop ext_csd switchOk testRead (if host8 then 0 else 1) := by
    unfold mmc_select_bus_width
    rw [if_neg hguard]
  rcases h8 : host8 with _ | _
  · rw [h8, if_neg (by simp)] at hsel
    rcases ha1 : bus_width_accepts ext_csd switchOk testRead 1 with _ | _
    · have hr : mmc_select_bus_width version false true (.ok ext_csd) switchOk testRead =
          ([MMC_BUS_WIDTH_4BIT], .error .BadMessage) := by
        rw [hsel, selectBusWidthLoop_reject ext_csd switchOk testRead 1 (by decide) ha1,
          selectBusWidthLoop_end]
        rfl
      refine ⟨by rw [hr]; decide, by rw [hr]; decide, ?_, ?_, ?_, ?_, ?_⟩
      · intro h _; exact absurd h (by decide)
      · intro h _ _; exact absurd h (by decide)
      · intro _ h2; exact absurd h2 (by simp [ha1])
      · intro h _ _; exact absurd h (by decide)
      · intro _ _; exact hr
    · have hr : mmc_select_bus_width version false true (.ok ext_csd) switchOk testRead =
          ([MMC_BUS_WIDTH_4BIT], .ok MMC_BUS_WIDTH_4BIT) := by
        rw [hsel, selectBusWidthLoop_accept ext_csd switchOk testRead 1 (by decide) ha1]
        rfl
      refine ⟨by rw [hr]; decide, by rw [hr]; decide, ?_, ?_, ?_, ?_, ?_⟩
      · intro h _; exact absurd h (by decide)
      · intro h _ _; exact absurd h (by decide)
      · intro _ _; exact hr
      · intro h _ _; exact absurd h (by decide)
      · intro _ h2; exact absurd h2 (by simp [ha1])
  · rw [h8, if_pos rfl] at hsel
    rcases ha0 : bus_width_accepts ext_csd switchOk testRead 0 with _ | _
    · rcases ha1 : bus_width_accepts ext_csd switchOk testRead 1 with _ | _
      · have hr : mmc_select_bus_width version true true (.ok ext_csd) switchOk testRead =
            ([MMC_BUS_WIDTH_8BIT, MMC_BUS_WIDTH_4BIT], .error .BadMessage) := by
          rw [hsel, selectBusWidthLoop_reject ext_csd switchOk testRead 0 (by decide) ha0,
            selectBusWidthLoop_reject ext_csd switchOk testRead 1 (by decide) ha1,
            selectBusWidthLoop_end]
          rfl
        refine ⟨by rw [hr]; decide, by rw [hr]; decide, ?_, ?_, ?_, ?_, ?_⟩
        · intro _ h2; exact absurd h2 (by simp [ha0])
        · intro _ _ h3; exact absurd h3 (by simp [ha1])
        · intro h _; exact absurd h (by decide)
        · intro _ _ _; exact hr
        · intro h _; exact absurd h (by decide)
      · have hr : mmc_select_bus_width version true true (.ok ext_csd) switchOk testRead =
            ([MMC_BUS_WIDTH_8BIT, MMC_BUS_WIDTH_4BIT], .ok MMC_BUS_WIDTH_4BIT) := by
          rw [hsel, selectBusWidthLoop_reject ext_csd switchOk testRead 0 (by decide) ha0,
            selectBusWidthLoop_accept ext_csd switchOk testRead 1 (by decide) ha1]
          rfl
        refine ⟨by rw [hr]; decide, by rw [hr]; decide, ?_, ?_, ?_, ?_, ?_⟩
        · intro _ h2; exact absurd h2 (by simp [ha0])
        · intro _ _ _; exact hr
        · intro h _; exact absurd h (by decide)
        · intro _ _ h3; exact absurd h3 (by simp [ha1])
        · intro h _; exact absurd h (by decide)
    · have hr : mmc_select_bus_width version true true (.ok ext_csd) switchOk testRead =
          ([MMC_BUS_WIDTH_8BIT], .ok MMC_BUS_WIDTH_8BIT) := by
        rw [hsel, selectBusWidthLoop_accept ext_csd switchOk testRead 0 (by decide) ha0]
        rfl
      refine ⟨by rw [hr]; decide, by rw [hr]; decide, ?_, ?_, ?_, ?_, ?_⟩
      · intro _ _; exact hr
      · intro _ h2 _; exact absurd h2 (by simp [ha0])
      · intro h _; exact absurd h (by decide)
      · intro _ h2 _; exact absurd h2 (by simp [ha0])
      · intro h _; exact absurd h (by decide)

/-- Witness for `c7_bus_width_selection`: every switch succeeds, the
verification read returns the pre-switch contents, the host supports
8-bit, so 8-bit is accepted first. -/
theorem c7_bus_width_selection_witness :
    mmc_select_bus_width MMC_VERSION_4 true true (.ok fun _ => 0) (fun _ => true)
        (fun _ => some fun _ => 0) =
      ([MMC_BUS_WIDTH_8BIT], .ok MMC_BUS_WIDTH_8BIT) :=
  (c7_bus_width_selection MMC_VERSION_4 true (fun _ => 0) (fun _ => true)
    (fun _ => some fun _ => 0) (by decide)).2.2.1 rfl (by decide)

/-! ### Claim C8 — `__sdhci_execute_tuning` (`src/emmc/mod.rs` lines 797-817) -/

/-- Modelled from the spec: the "execute tuning" and "tuned clock" bits of
the `EMMC_HOST_CTRL2` register (constants from the missing `config`/`info`
module; the standard SDHCI HOST_CONTROL2 bit positions are used — only
their identity as two distinct bits matters here). -/
def MMC_CTRL_EXEC_TUNING : Nat := 0x0040
def MMC_CTRL_TUNED_CLK : Nat := 0x0080

/-- `MAX_TUNING_LOOP` from `__sdhci_execute_tuning`. -/
def MAX_TUNING_LOOP : Nat := 40

/-- The `for _ in 0..MAX_TUNING_LOOP` loop of `__sdhci_execute_tuning`:
each iteration sends a tuning command (oracle `sendT`, whose error
propagates) and reads `EMMC_HOST_CTRL2` (oracle `ctrl`); if the
execute-tuning bit is clear, return `Ok` if the tuned-clock bit is set and
otherwise `break` out to `Err(Timeout)`; exhausting the loop is also
`Err(Timeout)`.  The first component counts the tuning commands issued. -/
def tuningLoop (sendT : Nat → Option SdError) (ctrl : Nat → Nat) :
    Nat → Nat → Nat × Except SdError Unit
  | 0, i => (i, .error .Timeout)
  | n + 1, i =>
    match sendT i with
    | some e => (i + 1, .error e)
    | none =>
      let c := ctrl i
      if c &&& MMC_CTRL_EXEC_TUNING = 0 then
        if c &&& MMC_CTRL_TUNED_CLK ≠ 0 then (i + 1, .ok ())
        else (i + 1, .error .Timeout)
      else tuningLoop sendT ctrl n (i + 1)

/-- `EMmcHost::__sdhci_execute_tuning` from `src/emmc/mod.rs`. -/
def sdhci_execute_tuning (sendT : Nat → Option SdError) (ctrl : Nat → Nat) :
    Nat × Except SdError Unit :=
  tuningLoop sendT ctrl MAX_TUNING_LOOP 0

lemma tuningLoop_exec_always_set (sendT : Nat → Option SdError) (ctrl : Nat → Nat)
    (hsend : ∀ i, sendT i = none) :
    ∀ n i, (∀ j, i ≤ j → j < i + n → ctrl j &&& MMC_CTRL_EXEC_TUNING ≠ 0) →
      tuningLoop sendT ctrl n i = (i + n, .error .Timeout) := by
  intro n
  induction n with
  | zero => intro i _; rfl
  | succ m ih =>
    intro i hset
    rw [tuningLoop]
    simp only [hsend i]
    rw [if_neg (hset i (le_refl i) (by omega))]
    rw [ih (i + 1) (fun j hj1 hj2 => hset j (by omega) (by omega))]
    congr 1
    omega

lemma tuningLoop_first_clear (sendT : Nat → Option SdError) (ctrl : Nat → Nat)
    (hsend : ∀ i, sendT i = none) :
    ∀ n i i0, i ≤ i0 → i0 < i + n →
      (∀ j, i ≤ j → j < i0 → ctrl j &&& MMC_CTRL_EXEC_TUNING ≠ 0) →
      ctrl i0 &&& MMC_CTRL_EXEC_TUNING = 0 →
      tuningLoop sendT ctrl n i =
        (i0 + 1, if ctrl i0 &&& MMC_CTRL_TUNED_CLK ≠ 0 then .ok () else .error .Timeout) := by
  intro n
  induction n with
  | zero => intro i i0 h1 h2 _ _; omega
  | succ m ih =>
    intro i i0 h1 h2 hbefore hclear
    rw [tuningLoop]
    simp only [hsend i]
    rcases Nat.eq_or_lt_of_le h1 with heq | hlt
    · subst heq
      rw [if_pos hclear]
      split <;> rfl
    · rw [if_neg (hbefore i (le_refl i) hlt)]
      exact ih (i + 1) i0 (by omega) (by omega)
        (fun j hj1 hj2 => hbefore j (by omega) hj2) hclear

/-- C8: in the HS200 tuning procedure (tuning commands all succeeding), if
the execute-tuning bit first reads back clear at iteration `i0 < 40` with
the tuned-clock bit set, the procedure returns success after exactly
`i0 + 1` tuning commands; if it first reads back clear without the
tuned-clock bit, the procedure returns a hard error (`Err(Timeout)`)
immediately, issuing no further tuning commands; and if the bit never
clears within the bounded loop of 40 iterations, the procedure issues 40
tuning commands and returns `Err(Timeout)`. -/
theorem c8_tuning (sendT : Nat → Option SdError) (ctrl : Nat → Nat)
    (hsend : ∀ i, sendT i = none) :
    (∀ i0, i0 < 40 → (∀ j, j < i0 → ctrl j &&& MMC_CTRL_EXEC_TUNING ≠ 0) →
      ctrl i0 &&& MMC_CTRL_EXEC_TUNING = 0 → ctrl i0 &&& MMC_CTRL_TUNED_CLK ≠ 0 →
      sdhci_execute_tuning sendT ctrl = (i0 + 1, .ok ())) ∧
    (∀ i0, i0 < 40 → (∀ j, j < i0 → ctrl j &&& MMC_CTRL_EXEC_TUNING ≠ 0) →
      ctrl i0 &&& MMC_CTRL_EXEC_TUNING = 0 → ctrl i0 &&& MMC_CTRL_TUNED_CLK = 0 →
      sdhci_execute_tuning sendT ctrl = (i0 + 1, .error .Timeout)) ∧
    ((∀ j, j < 40 → ctrl j &&& MMC_CTRL_EXEC_TUNING ≠ 0) →
      sdhci_execute_tuning sendT ctrl = (40, .error .Timeout)) := by
  refine ⟨?_, ?_, ?_⟩
  · intro i0 hlt hbefore hclear htuned
    unfold sdhci_execute_tuning MAX_TUNING_LOOP
    rw [tuningLoop_first_clear sendT ctrl hsend 40 0 i0 (by omega) (by omega)
      (fun j _ hj => hbefore j hj) hclear]
    rw [if_pos htuned]
  · intro i0 hlt hbefore hclear htuned
    unfold sdhci_execute_tuning MAX_TUNING_LOOP
    rw [tuningLoop_first_clear sendT ctrl hsend 40 0 i0 (by omega) (by omega)
      (fun j _ hj => hbefore j hj) hclear]
    rw [if_neg (by simp [htuned])]
  · intro hset
    unfold sdhci_execute_tuning MAX_TUNING_LOOP
    rw [tuningLoop_exec_always_set sendT ctrl hsend 40 0 (fun j _ hj => hset j (by omega))]

/-- Witness for `c8_tuning`: the execute-tuning bit clears on the third
read with the tuned-clock bit set, so tuning succeeds after three tuning
commands. -/
theorem c8_tuning_witness :
    sdhci_execute_tuning (fun _ => none)
        (fun i => if i < 2 then MMC_CTRL_EXEC_TUNING else MMC_CTRL_TUNED_CLK) =
      (3, .ok ()) := by
  have h := (c8_tuning (fun _ => none)
    (fun i => if i < 2 then MMC_CTRL_EXEC_TUNING else MMC_CTRL_TUNED_CLK)
    (fun _ => rfl)).1 2 (by omega)
    (fun j hj => by interval_cases j <;> decide) (by decide) (by decide)
  simpa using h

end Sdmmc
